import Mathlib

/-!
Shallow embedding of `homework.py` (a Telegram homework-status polling bot).

JSON values returned by the remote API are modelled by the inductive `Json`.
Python exceptions raised by the program are modelled by `PyError`; fallible
functions return `Except PyError _`.  The outside world (HTTP transport,
Telegram delivery) is modelled by explicit oracle inputs (`HttpOutcome`,
send-success booleans), so one iteration of the poll loop becomes the pure
function `runCycle`.
-/

/-- A parsed JSON value, as the Python program receives it from
`requests.get(...).json()`.  Objects keep their key/value pairs in order
(keys are unique in a parsed JSON object; lookup takes the first match). -/
inductive Json where
  | str (s : String)
  | num (n : Int)
  | bool (b : Bool)
  | null
  | arr (xs : List Json)
  | obj (kvs : List (String × Json))
deriving Repr

/-- First-match association lookup, modelling Python `dict` access on a
parsed JSON object. -/
def lookupKey : List (String × Json) → String → Option Json
  | [], _ => none
  | (k, v) :: rest, key => if k = key then some v else lookupKey rest key

/-- Python truthiness (`if x:`) of a JSON value: `None`, `False`, `0`, `""`,
`[]` and `{}` are falsy, everything else truthy. -/
def Json.truthy : Json → Bool
  | .str s => !s.isEmpty
  | .num n => n ≠ 0
  | .bool b => b
  | .null => false
  | .arr xs => !xs.isEmpty
  | .obj kvs => !kvs.isEmpty

mutual

/-- Python `repr()` of a JSON value. -/
def Json.pyRepr : Json → String
  | .str s => "'" ++ s ++ "'"
  | .num n => toString n
  | .bool true => "True"
  | .bool false => "False"
  | .null => "None"
  | .arr xs => "[" ++ String.intercalate ", " (pyReprList xs) ++ "]"
  | .obj kvs => "\x7b" ++ String.intercalate ", " (pyReprPairs kvs) ++ "\x7d"

/-- `repr` of each element of a JSON array. -/
def pyReprList : List Json → List String
  | [] => []
  | x :: xs => x.pyRepr :: pyReprList xs

/-- `'key': repr(value)` for each entry of a JSON object. -/
def pyReprPairs : List (String × Json) → List String
  | [] => []
  | (k, v) :: rest => ("'" ++ k ++ "': " ++ v.pyRepr) :: pyReprPairs rest

end

/-- Python `str()` of a JSON value, as used by f-string interpolation:
a string interpolates verbatim, every other value as its `repr`. -/
def Json.pyStr : Json → String
  | .str s => s
  | v => v.pyRepr

/-- The Python type name of a JSON value, as it appears in an
`AttributeError` message. -/
def Json.pyTypeName : Json → String
  | .str _ => "str"
  | .num _ => "int"
  | .bool _ => "bool"
  | .null => "NoneType"
  | .arr _ => "list"
  | .obj _ => "dict"

/-- The exceptions the program can raise during one cycle.
`telegramError` stands for the exception propagating out of `send_message`
when `bot.send_message` fails (the code logs and re-raises
`telegram.error.TelegramError`). -/
inductive PyError where
  | connectionError (msg : String)
  | typeError (msg : String)
  | keyError (msg : String)
  | attributeError (tyName : String)
  | telegramError
deriving Repr, DecidableEq

/-- Placeholder for `str()` of the re-raised `telegram.error.TelegramError`;
its exact text is determined by the telegram library, outside this
repository, and no behaviour below depends on it. -/
def telegramErrorText : String := "TelegramError"

/-- Environment variables read at import time:
`PRACTICUM_TOKEN`, `TELEGRAM_TOKEN`, `TELEGRAM_CHAT_ID` via `os.getenv`
(`none` when the variable is unset). -/
structure Creds where
  PRACTICUM_TOKEN : Option String
  TELEGRAM_TOKEN : Option String
  TELEGRAM_CHAT_ID : Option String

/-- Python truthiness of an `os.getenv` result: unset or empty is falsy. -/
def optStrTruthy : Option String → Bool
  | none => false
  | some s => !s.isEmpty

/-- `check_tokens`: `all((PRACTICUM_TOKEN, TELEGRAM_TOKEN, TELEGRAM_CHAT_ID))`. -/
def check_tokens (c : Creds) : Bool :=
  optStrTruthy c.PRACTICUM_TOKEN && optStrTruthy c.TELEGRAM_TOKEN
    && optStrTruthy c.TELEGRAM_CHAT_ID

/-- `HOMEWORK_VERDICTS`: the static verdict table. -/
def HOMEWORK_VERDICTS : List (String × String) :=
  [("approved", "Работа проверена: ревьюеру всё понравилось. Ура!"),
   ("reviewing", "Работа взята на проверку ревьюером."),
   ("rejected", "Работа проверена: у ревьюера есть замечания.")]

/-- First-match lookup in a string-keyed table. -/
def lookupStr : List (String × String) → String → Option String
  | [], _ => none
  | (k, v) :: rest, key => if k = key then some v else lookupStr rest key

/-- `HOMEWORK_VERDICTS.get(status)` where `status` is an arbitrary JSON
value: only a string key can match the string keys of the table. -/
def verdictFor (status : Json) : Option String :=
  match status with
  | .str s => lookupStr HOMEWORK_VERDICTS s
  | _ => none

/-- The outcome the HTTP transport hands to `get_api_answer`: either
`requests.get` raises a `requests.RequestException` (carrying its text), or
it returns a response with a status code and a parsed JSON body. -/
inductive HttpOutcome where
  | reqError (err : String)
  | response (status : Nat) (body : Json)

/-- `get_api_answer`: wraps a transport exception into
`ConnectionError("Ошибка при запросе к API: ...")`, rejects any non-200
status with a `ConnectionError` naming the status code, and otherwise
returns the parsed JSON body.  (The cursor only parametrises the outgoing
request; the oracle `outcome` already fixes the reply.) -/
def get_api_answer (outcome : HttpOutcome) : Except PyError Json :=
  match outcome with
  | .reqError e => .error (.connectionError ("Ошибка при запросе к API: " ++ e))
  | .response status body =>
      if status ≠ 200 then .error (.connectionError ("Ответ сервера: " ++ toString status))
      else .ok body

/-- `check_response`: requires a dict, the key `homeworks`, the key
`current_date`, and a list under `homeworks`; returns that list. -/
def check_response (response : Json) : Except PyError (List Json) :=
  match response with
  | .obj kvs =>
      match lookupKey kvs "homeworks" with
      | none => .error (.keyError "Нет ключа 'homeworks'")
      | some hw =>
          match lookupKey kvs "current_date" with
          | none => .error (.keyError "Нет ключа 'current_date'")
          | some _ =>
              match hw with
              | .arr xs => .ok xs
              | _ => .error (.typeError "Данные приходят не в виде списка")
  | _ => .error (.typeError "Данные приходят не в виде словаря")

/-- `parse_status`: reads `homework_name` and `status` with Python
truthiness checks, looks the status up in `HOMEWORK_VERDICTS`, and renders
the notification text.  A non-dict record fails like Python's
`homework.get` on a non-dict (`AttributeError`). -/
def parse_status (homework : Json) : Except PyError String :=
  match homework with
  | .obj kvs =>
      match lookupKey kvs "homework_name" with
      | none => .error (.keyError "Нет ключа 'homework_name'")
      | some nameVal =>
          if !nameVal.truthy then .error (.keyError "Нет ключа 'homework_name'")
          else
            match lookupKey kvs "status" with
            | none => .error (.keyError "Нет ключа 'status'")
            | some statusVal =>
                if !statusVal.truthy then .error (.keyError "Нет ключа 'status'")
                else
                  match verdictFor statusVal with
                  | none => .error (.keyError "API домашки возвращает недокументированный статус")
                  | some verdict =>
                      if verdict.isEmpty then
                        .error (.keyError "API домашки возвращает недокументированный статус")
                      else
                        .ok ("Изменился статус проверки работы \"" ++ nameVal.pyStr
                          ++ "\". " ++ verdict)
  | other => .error (.attributeError other.pyTypeName)

/-- `send_message`: attempts the outbound Telegram send; `ok` is the oracle
for whether `bot.send_message` succeeds.  On failure the function logs and
re-raises a `TelegramError`. -/
def send_message (ok : Bool) (message : String) : Except PyError Unit :=
  if ok then .ok () else .error .telegramError

/-- `check_message`: sends `message` when it differs from `prev_message`,
otherwise skips the send; returns the message that is now the last one
handled, paired with the list of outbound send attempts made. -/
def check_message (ok : Bool) (message prev_message : String) :
    Except PyError String × List String :=
  if message ≠ prev_message then
    match send_message ok message with
    | .ok _ => (.ok message, [message])
    | .error e => (.error e, [message])
  else
    (.ok message, [])

/-- The mutable state of `main`'s loop: the `from_date` cursor (`timestamp`,
a JSON value because `response.get("current_date", timestamp)` stores
whatever the server sent) and the last message string handed to
`check_message` (`prev_message`). -/
structure LoopState where
  timestamp : Json
  prev_message : String
deriving Repr

/-- The oracle inputs consumed by one loop iteration: the HTTP outcome, and
the success of the first and (if reached) second outbound send attempt. -/
structure CycleEnv where
  http : HttpOutcome
  send1 : Bool
  send2 : Bool

/-- Python `dict.get(key, default)`. -/
def pyDictGet (kvs : List (String × Json)) (key : String) (default : Json) : Json :=
  match lookupKey kvs key with
  | some v => v
  | none => default

/-- Main's conversion of a caught exception to the operator-facing text:
`except ConnectionError` / `except TypeError` keep their own prefixes,
everything else falls to `except Exception` ("Сбой в работе программы").
`str()` of a `KeyError` is the `repr` of its argument, hence the quotes. -/
def errText : PyError → String
  | .connectionError m => "Ошибка соединения: " ++ m
  | .typeError m => "Объект несоответствующего типа: " ++ m
  | .keyError m => "Сбой в работе программы: '" ++ m ++ "'"
  | .attributeError t =>
      "Сбой в работе программы: '" ++ t ++ "' object has no attribute 'get'"
  | .telegramError => "Сбой в работе программы: " ++ telegramErrorText

/-- One `except` handler of `main`: render the exception, route it through
`check_message`, and record the returned message as `prev_message`.  If the
send inside `check_message` itself raises, the exception escapes the
handler (first component `.error _`) and `prev_message` is not updated. -/
def handleError (ok : Bool) (e : PyError) (st : LoopState) :
    Except PyError Unit × LoopState × List String :=
  match check_message ok (errText e) st.prev_message with
  | (.ok pm, sends) => (.ok (), { st with prev_message := pm }, sends)
  | (.error e2, sends) => (.error e2, st, sends)

/-- The tail of the loop body once the cursor has been advanced (`st1` is
the state after `timestamp = response.get("current_date", timestamp)`):
validate the response, format the first record if any, and notify.  A
`TelegramError` raised by the first send is caught by `except Exception`
and handled with a second send attempt (`env.send2`). -/
def processResponse (env : CycleEnv) (st1 : LoopState)
    (kvs : List (String × Json)) :
    Except PyError Unit × LoopState × List String :=
  match check_response (.obj kvs) with
  | .error e => handleError env.send1 e st1
  | .ok homeworks =>
      match homeworks with
      | [] => (.ok (), st1, [])
      | hw :: _ =>
          match parse_status hw with
          | .error e => handleError env.send1 e st1
          | .ok message =>
              match check_message env.send1 message st1.prev_message with
              | (.ok pm, sends) =>
                  (.ok (), { st1 with prev_message := pm }, sends)
              | (.error e, sends1) =>
                  match handleError env.send2 e st1 with
                  | (r, st2, sends2) => (r, st2, sends1 ++ sends2)

/-- One iteration of `main`'s `while True` body (the `time.sleep` in
`finally` is real time and not modelled).  Returns whether the iteration
completed (`.ok ()`) or let an exception escape the loop body (`.error _`),
the loop state afterwards, and the outbound send attempts made.  Note that
`response.get("current_date", timestamp)` runs before `check_response`, and
on a non-dict response it raises `AttributeError` (caught by
`except Exception`). -/
def runCycle (env : CycleEnv) (st : LoopState) :
    Except PyError Unit × LoopState × List String :=
  match get_api_answer env.http with
  | .error e => handleError env.send1 e st
  | .ok response =>
      match response with
      | .obj kvs =>
          processResponse env
            { st with timestamp := pyDictGet kvs "current_date" st.timestamp } kvs
      | other =>
          handleError env.send1 (.attributeError other.pyTypeName) st

/-- Several consecutive iterations; stops (with the escaped exception) as
soon as one iteration lets an exception out of the loop body. -/
def runCycles : List CycleEnv → LoopState →
    Except PyError Unit × LoopState × List String
  | [], st => (.ok (), st, [])
  | env :: rest, st =>
      match runCycle env st with
      | (.ok _, st1, sends) =>
          match runCycles rest st1 with
          | (r, st2, sends2) => (r, st2, sends ++ sends2)
      | (.error e, st1, sends) => (.error e, st1, sends)

/-- Whether `main` enters the poll loop, and with which initial state. -/
inductive StartupResult where
  | exited
  | running (init : LoopState)
deriving Repr

/-- `main`'s startup: `sys.exit()` when `check_tokens` fails or the
`telegram.Bot` constructor raises (`botOk` oracle); otherwise enter the
loop with `timestamp = int(time.time())` and `prev_message = ""`. -/
def mainStartup (c : Creds) (botOk : Bool) (now : Int) : StartupResult :=
  if !check_tokens c then .exited
  else if !botOk then .exited
  else .running ⟨.num now, ""⟩

/-- The operator-facing text of a failed API request, as rendered by main's
`except ConnectionError` handler. -/
def outageMsg (e : String) : String :=
  errText (.connectionError ("Ошибка при запросе к API: " ++ e))

/-- A credential value is present and non-empty. -/
def credPresent (v : Option String) : Prop := ∃ s, v = some s ∧ s ≠ ""

/-! ## Helper lemmas -/

theorem isEmpty_false_of_ne (s : String) (h : s ≠ "") : s.isEmpty = false := by
  cases hs : s.isEmpty
  · rfl
  · exact absurd ((String.isEmpty_iff s).mp hs) h

theorem verdict_nonempty (st v : String)
    (h : lookupStr HOMEWORK_VERDICTS st = some v) : v.isEmpty = false := by
  simp [HOMEWORK_VERDICTS, lookupStr] at h
  split_ifs at h <;> (injection h with h; subst h; rfl)

theorem verdict_key_nonempty (st v : String)
    (h : lookupStr HOMEWORK_VERDICTS st = some v) : st.isEmpty = false := by
  simp [HOMEWORK_VERDICTS, lookupStr] at h
  split_ifs at h with a b c <;> simp_all
  · subst a; rfl
  · subst b; rfl
  · subst c; rfl

theorem handleError_dup (ok : Bool) (e : PyError) (st : LoopState)
    (h : errText e = st.prev_message) :
    handleError ok e st = (.ok (), { st with prev_message := errText e }, []) := by
  unfold handleError check_message send_message
  simp [h]

theorem handleError_send_ok (e : PyError) (st : LoopState)
    (h : errText e ≠ st.prev_message) :
    handleError true e st
      = (.ok (), { st with prev_message := errText e }, [errText e]) := by
  unfold handleError check_message send_message
  simp [h]

theorem handleError_send_fail (e : PyError) (st : LoopState)
    (h : errText e ≠ st.prev_message) :
    handleError false e st = (.error .telegramError, st, [errText e]) := by
  unfold handleError check_message send_message
  simp [h]

theorem handleError_fst (ok : Bool) (e : PyError) (st : LoopState) :
    (handleError ok e st).1 = .ok ()
      ∨ (handleError ok e st).1 = .error .telegramError := by
  rcases eq_or_ne (errText e) st.prev_message with h | h
  · rw [handleError_dup ok e st h]; left; rfl
  · cases ok
    · rw [handleError_send_fail e st h]; right; rfl
    · rw [handleError_send_ok e st h]; left; rfl

theorem handleError_fst_ok (e : PyError) (st : LoopState) :
    (handleError true e st).1 = .ok () := by
  rcases eq_or_ne (errText e) st.prev_message with h | h
  · rw [handleError_dup true e st h]
  · rw [handleError_send_ok e st h]

theorem handleError_timestamp (ok : Bool) (e : PyError) (st : LoopState) :
    (handleError ok e st).2.1.timestamp = st.timestamp := by
  rcases eq_or_ne (errText e) st.prev_message with h | h
  · rw [handleError_dup ok e st h]
  · cases ok
    · rw [handleError_send_fail e st h]
    · rw [handleError_send_ok e st h]

theorem check_message_true_eq (m prev : String) :
    check_message true m prev = (.ok m, if m = prev then [] else [m]) := by
  unfold check_message send_message
  split <;> simp_all

theorem check_response_obj_eq_ok_iff (kvs : List (String × Json)) (hs : List Json) :
    check_response (.obj kvs) = .ok hs ↔
      lookupKey kvs "homeworks" = some (.arr hs)
        ∧ (lookupKey kvs "current_date").isSome = true := by
  rcases h1 : lookupKey kvs "homeworks" with _ | hw <;>
    rcases h2 : lookupKey kvs "current_date" with _ | cd <;>
      simp only [check_response, h1, h2] <;> simp
  cases hw <;> simp

theorem check_response_not_obj (r : Json) (h : ∀ kvs, r ≠ .obj kvs) :
    check_response r = .error (.typeError "Данные приходят не в виде словаря") := by
  cases r <;> first | rfl | exact absurd rfl (h _)

theorem parse_status_ok_of (kvs : List (String × Json)) (nm st v : String)
    (h1 : lookupKey kvs "homework_name" = some (.str nm)) (h2 : nm ≠ "")
    (h3 : lookupKey kvs "status" = some (.str st))
    (h4 : lookupStr HOMEWORK_VERDICTS st = some v) :
    parse_status (.obj kvs)
      = .ok ("Изменился статус проверки работы \"" ++ nm ++ "\". " ++ v) := by
  simp [parse_status, h1, h3, Json.truthy, isEmpty_false_of_ne nm h2,
    verdict_key_nonempty st v h4, verdictFor, h4, verdict_nonempty st v h4, Json.pyStr]

theorem parse_status_ok_inv (kvs : List (String × Json))
    (hn : lookupKey kvs "homework_name" = none
        ∨ ∃ s, lookupKey kvs "homework_name" = some (.str s))
    (hsf : lookupKey kvs "status" = none
        ∨ ∃ s, lookupKey kvs "status" = some (.str s))
    (m : String) (hok : parse_status (.obj kvs) = .ok m) :
    ∃ nm st v, lookupKey kvs "homework_name" = some (.str nm) ∧ nm ≠ ""
      ∧ lookupKey kvs "status" = some (.str st)
      ∧ lookupStr HOMEWORK_VERDICTS st = some v := by
  rcases hn with hn | ⟨nm, hn⟩
  · simp [parse_status, hn] at hok
  · rcases eq_or_ne nm "" with rfl | h2
    · simp [parse_status, hn, Json.truthy,
        (show ("" : String).isEmpty = true from rfl)] at hok
    · rcases hsf with hs | ⟨stv, hs⟩
      · simp [parse_status, hn, hs, Json.truthy, isEmpty_false_of_ne nm h2] at hok
      · rcases eq_or_ne stv "" with rfl | h3
        · simp [parse_status, hn, hs, Json.truthy, isEmpty_false_of_ne nm h2,
            (show ("" : String).isEmpty = true from rfl)] at hok
        · cases hv : lookupStr HOMEWORK_VERDICTS stv with
          | none =>
              simp [parse_status, hn, hs, Json.truthy, isEmpty_false_of_ne nm h2,
                isEmpty_false_of_ne stv h3, verdictFor, hv] at hok
          | some v => exact ⟨nm, stv, v, hn, h2, hs, hv⟩

theorem processResponse_fst (env : CycleEnv) (st1 : LoopState)
    (kvs : List (String × Json)) :
    (processResponse env st1 kvs).1 = .ok ()
      ∨ (processResponse env st1 kvs).1 = .error .telegramError := by
  unfold processResponse
  split
  · exact handleError_fst _ _ _
  · split
    · left; rfl
    · split
      · exact handleError_fst _ _ _
      · split
        · left; rfl
        · rename_i e sends1 heq
          rcases hp : handleError env.send2 e st1 with ⟨r, st2, s2⟩
          have hf := handleError_fst env.send2 e st1
          rw [hp] at hf
          simpa using hf

theorem runCycle_fst (env : CycleEnv) (st : LoopState) :
    (runCycle env st).1 = .ok () ∨ (runCycle env st).1 = .error .telegramError := by
  unfold runCycle
  split
  · exact handleError_fst _ _ _
  · split
    · exact processResponse_fst _ _ _
    · exact handleError_fst _ _ _

theorem processResponse_fst_ok (env : CycleEnv) (st1 : LoopState)
    (kvs : List (String × Json)) (h1 : env.send1 = true) (h2 : env.send2 = true) :
    (processResponse env st1 kvs).1 = .ok () := by
  unfold processResponse
  split
  · rw [h1]; exact handleError_fst_ok _ _
  · split
    · rfl
    · split
      · rw [h1]; exact handleError_fst_ok _ _
      · split
        · rfl
        · rename_i e sends1 heq
          rw [h1, check_message_true_eq] at heq
          simp at heq

theorem runCycle_fst_ok (env : CycleEnv) (st : LoopState)
    (h1 : env.send1 = true) (h2 : env.send2 = true) :
    (runCycle env st).1 = .ok () := by
  unfold runCycle
  split
  · rw [h1]; exact handleError_fst_ok _ _
  · split
    · exact processResponse_fst_ok _ _ _ h1 h2
    · rw [h1]; exact handleError_fst_ok _ _

theorem processResponse_timestamp (env : CycleEnv) (st1 : LoopState)
    (kvs : List (String × Json)) :
    (processResponse env st1 kvs).2.1.timestamp = st1.timestamp := by
  unfold processResponse
  split
  · exact handleError_timestamp _ _ _
  · split
    · rfl
    · split
      · exact handleError_timestamp _ _ _
      · split
        · rfl
        · rename_i e sends1 heq
          rcases hp : handleError env.send2 e st1 with ⟨r, st2, s2⟩
          have ht := handleError_timestamp env.send2 e st1
          rw [hp] at ht
          simpa using ht

theorem runCycle_timestamp (env : CycleEnv) (st : LoopState)
    (kvs : List (String × Json)) (h : env.http = .response 200 (.obj kvs)) :
    (runCycle env st).2.1.timestamp = pyDictGet kvs "current_date" st.timestamp := by
  unfold runCycle
  rw [h]
  simp only [get_api_answer]
  norm_num
  rw [processResponse_timestamp]

theorem optStrTruthy_iff (v : Option String) :
    optStrTruthy v = true ↔ ∃ s, v = some s ∧ s ≠ "" := by
  cases v with
  | none => simp [optStrTruthy]
  | some s =>
      constructor
      · intro h
        refine ⟨s, rfl, ?_⟩
        intro hs
        subst hs
        rw [show optStrTruthy (some "") = false from rfl] at h
        exact Bool.noConfusion h
      · rintro ⟨s', hs', hne⟩
        injection hs' with hs'
        subst hs'
        simp [optStrTruthy, isEmpty_false_of_ne _ hne]

/-! ## Claim theorems -/

/-- Claim C1: for one cycle starting in state (cursor = t, last_sent = "")
where the API returns status 200 with body
`{"homeworks": [{"homework_name": "proj1", "status": "approved"}],
"current_date": 1000}`, exactly one message is sent, its text is
`Изменился статус проверки работы "proj1". Работа проверена: ревьюеру всё
понравилось. Ура!`, and the cursor afterwards equals 1000. -/
theorem scenarioA_one_message_and_cursor (t : Json) :
    runCycle
      ⟨.response 200 (.obj
          [("homeworks", .arr [.obj [("homework_name", .str "proj1"),
                                     ("status", .str "approved")]]),
           ("current_date", .num 1000)]), true, true⟩
      ⟨t, ""⟩
      = (.ok (), ⟨.num 1000,
          "Изменился статус проверки работы \"proj1\". Работа проверена: ревьюеру всё понравилось. Ура!"⟩,
         ["Изменился статус проверки работы \"proj1\". Работа проверена: ревьюеру всё понравилось. Ура!"]) := rfl

/-- Claim C2, counterexample: a delivery failure is NOT always contained in
the iteration.  In a cycle where a homework update is available but both the
normal send and the subsequent error-notification send fail, the
`TelegramError` raised inside the `except` handler escapes the loop body, so
the iteration does raise. -/
theorem cycle_raises_when_error_delivery_fails :
    (runCycle
      ⟨.response 200 (.obj
          [("homeworks", .arr [.obj [("homework_name", .str "proj1"),
                                     ("status", .str "approved")]]),
           ("current_date", .num 1000)]), false, false⟩
      ⟨.num 0, ""⟩).1
      = .error .telegramError := rfl

/-- Claim C2, amended: every failure raised inside the `try` body of an
iteration is converted to a textual diagnostic routed through the notifier;
the only exception that can escape the loop body is the `TelegramError` of a
failed outbound send of such a diagnostic, and when every attempted outbound
send succeeds the iteration never raises. -/
theorem cycle_raises_only_on_diagnostic_delivery_failure
    (env : CycleEnv) (st : LoopState) :
    ((runCycle env st).1 = .ok () ∨ (runCycle env st).1 = .error .telegramError)
    ∧ (env.send1 = true → env.send2 = true → (runCycle env st).1 = .ok ()) :=
  ⟨runCycle_fst env st, fun h1 h2 => runCycle_fst_ok env st h1 h2⟩

/-- Witness for the amended C2 theorem at a concrete environment. -/
theorem cycle_raises_only_on_diagnostic_delivery_failure_witness :
    (runCycle ⟨.reqError "x", true, true⟩ ⟨.num 0, ""⟩).1 = .ok () :=
  (cycle_raises_only_on_diagnostic_delivery_failure
    ⟨.reqError "x", true, true⟩ ⟨.num 0, ""⟩).2 rfl rfl

/-- Claim C3, counterexample: the validator does NOT succeed on every
mapping whose `homeworks` value is a sequence — `check_response` also
demands the key `current_date`, so `{"homeworks": []}` fails with a
`KeyError` where the claim requires success. -/
theorem check_response_rejects_missing_current_date :
    check_response (.obj [("homeworks", .arr [])])
      = .error (.keyError "Нет ключа 'current_date'") := rfl

/-- Claim C3, amended: the response validator fails exactly when the
response is not a mapping, the key `homeworks` is absent, the key
`current_date` is absent, or the value under `homeworks` is not a sequence;
for every mapping containing `current_date` whose `homeworks` value is a
sequence it succeeds and returns that sequence unchanged (possibly empty),
regardless of which other keys are present. -/
theorem check_response_characterization (r : Json) :
    ((∃ hs, check_response r = .ok hs) ↔
      ∃ kvs hs, r = .obj kvs ∧ lookupKey kvs "homeworks" = some (.arr hs)
        ∧ (lookupKey kvs "current_date").isSome = true)
    ∧ (∀ kvs hs, r = .obj kvs → lookupKey kvs "homeworks" = some (.arr hs) →
        (lookupKey kvs "current_date").isSome = true → check_response r = .ok hs) := by
  constructor
  · constructor
    · rintro ⟨hs, h⟩
      cases r <;> first
        | (rw [check_response_obj_eq_ok_iff] at h; exact ⟨_, hs, rfl, h.1, h.2⟩)
        | simp [check_response] at h
    · rintro ⟨kvs, hs, rfl, hh, hc⟩
      exact ⟨hs, (check_response_obj_eq_ok_iff kvs hs).mpr ⟨hh, hc⟩⟩
  · rintro kvs hs rfl hh hc
    exact (check_response_obj_eq_ok_iff kvs hs).mpr ⟨hh, hc⟩

/-- Witness for the amended C3 theorem: a response with both keys
validates to its (empty) homework list. -/
theorem check_response_characterization_witness :
    check_response (.obj [("homeworks", .arr []), ("current_date", .num 1000)])
      = .ok [] :=
  (check_response_characterization _).2 _ [] rfl rfl rfl

/-- Claim C4: for records whose `homework_name` and `status` fields are
strings (or absent), the status formatter succeeds exactly when the name is
present and non-empty and the status is present and one of the three known
codes; on success it returns precisely the template
template (name in quotes, then the verdict sentence), which contains the
verdict sentence and the record's name verbatim. -/
theorem parse_status_characterization (kvs : List (String × Json))
    (hn : lookupKey kvs "homework_name" = none
        ∨ ∃ s, lookupKey kvs "homework_name" = some (.str s))
    (hsf : lookupKey kvs "status" = none
        ∨ ∃ s, lookupKey kvs "status" = some (.str s)) :
    ((∃ m, parse_status (.obj kvs) = .ok m) ↔
      ∃ nm st v, lookupKey kvs "homework_name" = some (.str nm) ∧ nm ≠ ""
        ∧ lookupKey kvs "status" = some (.str st)
        ∧ lookupStr HOMEWORK_VERDICTS st = some v)
    ∧ (∀ nm st v, lookupKey kvs "homework_name" = some (.str nm) → nm ≠ "" →
        lookupKey kvs "status" = some (.str st) →
        lookupStr HOMEWORK_VERDICTS st = some v →
        parse_status (.obj kvs)
          = .ok ("Изменился статус проверки работы \"" ++ nm ++ "\". " ++ v)) := by
  constructor
  · constructor
    · rintro ⟨m, hok⟩
      exact parse_status_ok_inv kvs hn hsf m hok
    · rintro ⟨nm, st, v, h1, h2, h3, h4⟩
      exact ⟨_, parse_status_ok_of kvs nm st v h1 h2 h3 h4⟩
  · intro nm st v h1 h2 h3 h4
    exact parse_status_ok_of kvs nm st v h1 h2 h3 h4

/-- Witness for the C4 theorem at a concrete approved homework record. -/
theorem parse_status_characterization_witness :
    parse_status (.obj [("homework_name", .str "proj1"), ("status", .str "approved")])
      = .ok ("Изменился статус проверки работы \"proj1\". Работа проверена: ревьюеру всё понравилось. Ура!") :=
  (parse_status_characterization
      [("homework_name", .str "proj1"), ("status", .str "approved")]
      (Or.inr ⟨"proj1", rfl⟩) (Or.inr ⟨"approved", rfl⟩)).2
    "proj1" "approved" "Работа проверена: ревьюеру всё понравилось. Ура!"
    rfl (by decide) rfl rfl

/-- Claim C5: dedup idempotence of the notifier.  Calling `check_message`
with a message equal to the last sent one performs no outbound send and
returns that message unchanged; hence after a first (sending) call the
second call with the same string sends nothing — exactly one send total. -/
theorem notify_dedup_idempotent (ok : Bool) (m prev : String) (h : m ≠ prev) :
    check_message ok m m = (.ok m, [])
    ∧ check_message true m prev = (.ok m, [m]) := by
  constructor
  · unfold check_message send_message
    simp
  · unfold check_message send_message
    simp [h]

/-- Witness for the C5 theorem at concrete strings. -/
theorem notify_dedup_idempotent_witness :
    check_message true "a" "a" = (.ok "a", [])
    ∧ check_message true "a" "" = (.ok "a", ["a"]) :=
  notify_dedup_idempotent true "a" "" (by decide)

/-- Claim C6: two consecutive cycles whose API call raises the same
connection failure send the error text exactly once (on the first cycle)
and nothing on the second; the final `prev_message` is the error text and
the cursor is untouched. -/
theorem persistent_outage_notifies_once (e : String) (st : LoopState)
    (h : "Ошибка соединения: " ++ ("Ошибка при запросе к API: " ++ e)
        ≠ st.prev_message) :
    runCycles [⟨.reqError e, true, true⟩, ⟨.reqError e, true, true⟩] st
      = (.ok (),
         ⟨st.timestamp, "Ошибка соединения: " ++ ("Ошибка при запросе к API: " ++ e)⟩,
         ["Ошибка соединения: " ++ ("Ошибка при запросе к API: " ++ e)]) := by
  have hmsg : outageMsg e
      = "Ошибка соединения: " ++ ("Ошибка при запросе к API: " ++ e) := rfl
  have hc1 : runCycle ⟨.reqError e, true, true⟩ st
      = (.ok (), { st with prev_message := outageMsg e }, [outageMsg e]) := by
    unfold runCycle
    simp only [get_api_answer]
    exact handleError_send_ok _ st h
  have hc2 : runCycle ⟨.reqError e, true, true⟩ { st with prev_message := outageMsg e }
      = (.ok (), { st with prev_message := outageMsg e }, []) := by
    unfold runCycle
    simp only [get_api_answer]
    exact handleError_dup true _ _ rfl
  simp only [runCycles, hc1, hc2]
  simp [hmsg]

/-- Witness for the C6 theorem at a concrete outage and start state. -/
theorem persistent_outage_notifies_once_witness :
    runCycles [⟨.reqError "boom", true, true⟩, ⟨.reqError "boom", true, true⟩]
      ⟨.num 0, ""⟩
      = (.ok (),
         ⟨.num 0, "Ошибка соединения: " ++ ("Ошибка при запросе к API: " ++ "boom")⟩,
         ["Ошибка соединения: " ++ ("Ошибка при запросе к API: " ++ "boom")]) :=
  persistent_outage_notifies_once "boom" ⟨.num 0, ""⟩ (by decide)

/-- Claim C7: `check_tokens` returns true exactly when all three
credentials are present and non-empty, and whenever it returns false the
process exits at startup without entering the poll loop. -/
theorem missing_credentials_never_enter_loop (c : Creds) (botOk : Bool) (now : Int) :
    (check_tokens c = true ↔
      credPresent c.PRACTICUM_TOKEN ∧ credPresent c.TELEGRAM_TOKEN
        ∧ credPresent c.TELEGRAM_CHAT_ID)
    ∧ (check_tokens c = false → mainStartup c botOk now = .exited) := by
  constructor
  · unfold check_tokens
    rw [Bool.and_eq_true, Bool.and_eq_true]
    rw [optStrTruthy_iff, optStrTruthy_iff, optStrTruthy_iff]
    exact ⟨fun x => ⟨x.1.1, x.1.2, x.2⟩, fun x => ⟨⟨x.1, x.2.1⟩, x.2.2⟩⟩
  · intro hf
    unfold mainStartup
    rw [hf]
    rfl

/-- Witness for the C7 theorem: a triple with a missing bot token exits. -/
theorem missing_credentials_never_enter_loop_witness :
    mainStartup ⟨some "tok", none, some "chat"⟩ true 0 = .exited :=
  (missing_credentials_never_enter_loop ⟨some "tok", none, some "chat"⟩ true 0).2 rfl

/-- Claim C8: a cycle whose response is `{"homeworks": [], "current_date":
1000}` sends nothing and leaves the cursor at 1000; in general, for every
200-status dict response the cursor after the cycle equals the response's
`current_date` when present and the previous cursor otherwise. -/
theorem scenarioB_no_message_and_cursor_policy (t : Json) (prev : String)
    (s1 s2 : Bool) :
    runCycle
      ⟨.response 200 (.obj [("homeworks", .arr []), ("current_date", .num 1000)]),
       s1, s2⟩ ⟨t, prev⟩
      = (.ok (), ⟨.num 1000, prev⟩, [])
    ∧ ∀ (env : CycleEnv) (st : LoopState) (kvs : List (String × Json)),
        env.http = .response 200 (.obj kvs) →
        (runCycle env st).2.1.timestamp = pyDictGet kvs "current_date" st.timestamp :=
  ⟨rfl, fun env st kvs h => runCycle_timestamp env st kvs h⟩

/-- Witness for the C8 theorem: with `current_date` absent the cursor is
left unchanged. -/
theorem scenarioB_no_message_and_cursor_policy_witness :
    (runCycle ⟨.response 200 (.obj [("homeworks", .arr [.null])]), false, false⟩
        ⟨.num 3, ""⟩).2.1.timestamp = .num 3 :=
  (scenarioB_no_message_and_cursor_policy (.num 0) "" true true).2
    ⟨.response 200 (.obj [("homeworks", .arr [.null])]), false, false⟩
    ⟨.num 3, ""⟩ [("homeworks", .arr [.null])] rfl

/-- Claim C9: the cursor is advanced to the response's `current_date`
before shape validation, so a cycle whose dict response carries
`current_date` but fails `check_response` still ends with the cursor at
that `current_date`, while the cycle produces one error notification. -/
theorem cursor_advances_despite_validation_failure (env : CycleEnv) (st : LoopState)
    (kvs : List (String × Json)) (cd : Json) (e : PyError)
    (h1 : env.http = .response 200 (.obj kvs))
    (h2 : lookupKey kvs "current_date" = some cd)
    (h3 : check_response (.obj kvs) = .error e)
    (h4 : env.send1 = true)
    (h5 : errText e ≠ st.prev_message) :
    runCycle env st = (.ok (), ⟨cd, errText e⟩, [errText e]) := by
  unfold runCycle
  rw [h1]
  simp only [get_api_answer]
  norm_num
  unfold processResponse
  rw [h3, h4]
  dsimp only
  rw [handleError_send_ok e ⟨pyDictGet kvs "current_date" st.timestamp, st.prev_message⟩ h5]
  simp [pyDictGet, h2]

/-- Witness for the C9 theorem: `homeworks` absent but `current_date`
present still advances the cursor to 7. -/
theorem cursor_advances_despite_validation_failure_witness :
    runCycle ⟨.response 200 (.obj [("current_date", .num 7)]), true, true⟩
        ⟨.num 0, ""⟩
      = (.ok (), ⟨.num 7, "Сбой в работе программы: 'Нет ключа 'homeworks''"⟩,
         ["Сбой в работе программы: 'Нет ключа 'homeworks''"]) :=
  cursor_advances_despite_validation_failure
    ⟨.response 200 (.obj [("current_date", .num 7)]), true, true⟩ ⟨.num 0, ""⟩
    [("current_date", .num 7)] (.num 7) (.keyError "Нет ключа 'homeworks'")
    rfl rfl rfl rfl (by decide)

/-- Claim C10: when the outbound send fails, `check_message` propagates the
error instead of returning, so the caller's `prev_message` assignment never
runs and the last-sent state is unchanged (shown at the handler level: the
returned state is exactly the input state); with a working transport the
same message is sent again later. -/
theorem delivery_failure_preserves_last_sent (m : String) (st : LoopState)
    (e : PyError) (h1 : m ≠ st.prev_message) (h2 : errText e ≠ st.prev_message) :
    check_message false m st.prev_message = (.error .telegramError, [m])
    ∧ check_message true m st.prev_message = (.ok m, [m])
    ∧ handleError false e st = (.error .telegramError, st, [errText e]) := by
  refine ⟨?_, ?_, handleError_send_fail e st h2⟩
  · unfold check_message send_message
    simp [h1]
  · unfold check_message send_message
    simp [h1]

/-- Witness for the C10 theorem at concrete inputs. -/
theorem delivery_failure_preserves_last_sent_witness :
    check_message false "a" "" = (.error .telegramError, ["a"])
    ∧ check_message true "a" "" = (.ok "a", ["a"])
    ∧ handleError false .telegramError ⟨.num 0, ""⟩
        = (.error .telegramError, ⟨.num 0, ""⟩,
           ["Сбой в работе программы: " ++ telegramErrorText]) :=
  delivery_failure_preserves_last_sent "a" ⟨.num 0, ""⟩ .telegramError
    (by decide) (by decide)
